import Mathlib

/-!
Verification of the Karaka GPS timing firmware core (src/gps.c, src/main.c).

This file gives a shallow embedding, in Lean, of the packet synchronizer, the
Trimble (binary) and Magellan (text) protocol decoders, the epoch-correction
arithmetic, and the exposure-countdown state transitions of the firmware, and
proves or refutes the stated behavioural properties about them.

Machine integers are modelled as `Nat` with explicit `% 256` where the C code
performs `unsigned char` arithmetic.  Serial input is modelled as a list of
byte values; the firmware's 256-byte circular receive buffer hands the decoder
exactly the unread byte span plus up to four bytes of retained history, which
is what the list-plus-history parameters below represent.  Hardware actions
(raising the camera trigger line, emitting a debug message over the command
channel) are modelled as event counters in the state record, since only their
occurrence and multiplicity matter to the properties proved here.
-/

namespace Karaka

set_option maxRecDepth 8192

/-- The DLE framing byte of the Trimble binary protocol (src/gps.h usage in gps.c). -/
def DLE : Nat := 0x10

/-- The ETX terminator byte of the Trimble binary protocol. -/
def ETX : Nat := 0x03

/-- The `timestamp` record filled in by the decoders (fields used by gps.c). -/
structure Timestamp where
  hours : Nat
  minutes : Nat
  seconds : Nat
  day : Nat
  month : Nat
  year : Nat
  locked : Bool
deriving DecidableEq, Repr

/-- The packet classification held in `gps_packet_type` (gps.c lines 54, 232, 237, 265). -/
inductive PacketType where
  | unknown
  | trimble
  | magellanTime
  | magellanStatus
deriving DecidableEq, Repr

/-- The GPS link state held in `gps_state` (values GPS_UNAVAILABLE, GPS_SYNCING,
GPS_ACTIVE in gps.c; GPS_TIME_GOOD checked by main.c / display.c). -/
inductive GpsLink where
  | unavailable
  | syncing
  | active
  | timeGood
deriving DecidableEq, Repr

/-- The countdown state held in `countdown_mode` (values COUNTDOWN_TRIGGERED,
COUNTDOWN_ENABLED, COUNTDOWN_SYNCING used in gps.c `set_time`; Disabled is the
startup value for an unset exposure length). -/
inductive CountdownMode where
  | disabled
  | syncing
  | enabled
  | triggered
deriving DecidableEq, Repr

/-- The global mutable state shared between the interrupt handlers and the main
loop.  Fields mirror the C globals of gps.c and main.c; the final group of
`Nat` fields counts externally visible events (debug messages, trigger pulses,
timestamp transmissions) that the C code performs by side effect. -/
structure SysState where
  countdownMode : CountdownMode
  exposureTotal : Nat
  exposureCount : Nat
  exposureSyncing : Bool
  gpsState : GpsLink
  recordSynctime : Bool
  lastTimestamp : Timestamp
  lastSynctime : Timestamp
  magellanLocked : Bool
  packetType : PacketType
  packetLength : Nat
  bytesToSync : Nat
  inputBuffer : List Nat
  downloadTriggers : Nat
  missedPpsMessages : Nat
  lostSerialMessages : Nat
  sentTimestamps : Nat
  sentDownloadTimestamps : Nat
  badPacketMessages : Nat
  checksumFailMessages : Nat
deriving DecidableEq, Repr

/-- The all-zero timestamp record (startup contents of `gps_last_timestamp`). -/
def zeroTimestamp : Timestamp :=
  { hours := 0, minutes := 0, seconds := 0, day := 0, month := 0, year := 0, locked := false }

/-- Startup state: main.c lines 47-48 (`exposure_count = exposure_total = 0`,
`exposure_syncing = TRUE`), gps.c lines 115-116 (`gps_record_synctime = FALSE`,
`gps_state = GPS_UNAVAILABLE`) and the static initialisers of gps.c lines
43-55 (`gps_magellan_locked = FALSE`, `gps_packet_type = UNKNOWN_PACKET`,
`gps_packet_length = 0`, `bytes_to_sync = 0`). -/
def initState : SysState :=
  { countdownMode := CountdownMode.disabled
    exposureTotal := 0
    exposureCount := 0
    exposureSyncing := true
    gpsState := GpsLink.unavailable
    recordSynctime := false
    lastTimestamp := zeroTimestamp
    lastSynctime := zeroTimestamp
    magellanLocked := false
    packetType := PacketType.unknown
    packetLength := 0
    bytesToSync := 0
    inputBuffer := []
    downloadTriggers := 0
    missedPpsMessages := 0
    lostSerialMessages := 0
    sentTimestamps := 0
    sentDownloadTimestamps := 0
    badPacketMessages := 0
    checksumFailMessages := 0 }

/-- Modelled from the spec: `trigger_countdown` is called at src/gps.c line 142 but
its definition lives in the main-loop translation unit, which is not present under
src/.  Spec section 4.5 describes the countdown trigger sequence that it forces:
reset the remaining counter to the full exposure length, mark that the next valid
timestamp should be recorded as the synchronized exposure-start time, raise the
external download/exposure trigger signal, and transition to Triggered. -/
def trigger_countdown (s : SysState) : SysState :=
  { s with
    exposureCount := s.exposureTotal
    recordSynctime := true
    downloadTriggers := s.downloadTriggers + 1
    countdownMode := CountdownMode.triggered }

/-- `set_time` (src/gps.c lines 133-166): deliver a freshly decoded timestamp.
If the countdown is Triggered, the PPS edge already serviced this second, so
re-arm to Enabled; if it is still Enabled, the PPS pulse was missed, so force
the countdown trigger and log a warning.  Then store the timestamp, mark the
link Active, arm a Syncing countdown on an exposure-length boundary, record the
synchronized start time when requested, and transmit the timestamp. -/
def set_time (t : Timestamp) (s : SysState) : SysState :=
  let s1 :=
    if s.countdownMode = CountdownMode.triggered then
      { s with countdownMode := CountdownMode.enabled }
    else if s.countdownMode = CountdownMode.enabled then
      let sf := trigger_countdown s
      { sf with missedPpsMessages := sf.missedPpsMessages + 1 }
    else s
  let s2 := { s1 with lastTimestamp := t, gpsState := GpsLink.active }
  let s3 :=
    if s2.countdownMode = CountdownMode.syncing ∧ t.seconds % s2.exposureTotal = 0 then
      { s2 with countdownMode := CountdownMode.enabled }
    else s2
  let s4 :=
    if s3.recordSynctime then
      { s3 with
        lastSynctime := t
        recordSynctime := false
        sentDownloadTimestamps := s3.sentDownloadTimestamps + 1 }
    else s3
  { s4 with sentTimestamps := s4.sentTimestamps + 1 }

/-- The PPS edge interrupt `SIGNAL(SIG_INTERRUPT0)` (src/main.c lines 83-98).
Only counts down when the GPS link is TimeGood and the exposure is not syncing;
the pre-decrement `--exposure_count` is `unsigned char` arithmetic, modelled as
`(c + 255) % 256`.  Reaching zero reloads the counter, flags the sync-time
recording, and raises the camera download trigger (`trigger_download()`). -/
def sig_interrupt0 (s : SysState) : SysState :=
  if s.gpsState = GpsLink.timeGood ∧ s.exposureSyncing = false then
    let c := (s.exposureCount + 255) % 256
    if c = 0 then
      { s with
        exposureCount := s.exposureTotal
        recordSynctime := true
        downloadTriggers := s.downloadTriggers + 1 }
    else
      { s with exposureCount := c }
  else s

/-- The serial-silence watchdog `ISR(TIMER1_OVF_vect)` (src/gps.c lines 173-177):
after 4.0 s without a received byte, declare the link Unavailable and emit a
diagnostic.  The hardware timer register itself is not modelled. -/
def timer1_ovf (s : SysState) : SysState :=
  { s with
    gpsState := GpsLink.unavailable
    lostSerialMessages := s.lostSerialMessages + 1 }

/-- The receive interrupt `ISR(USART1_RX_vect)` (src/gps.c lines 182-191): reset
the watchdog countdown (hardware register, not modelled), promote an Unavailable
link to Syncing, and append the received byte to the circular input buffer. -/
def usart1_rx (b : Nat) (s : SysState) : SysState :=
  let s1 :=
    if s.gpsState = GpsLink.unavailable then { s with gpsState := GpsLink.syncing } else s
  { s1 with inputBuffer := s1.inputBuffer ++ [b % 256] }

/-- `is_leap_year` (src/gps.c lines 196-201): divisible by 4, and when divisible
by 100 also divisible by 400. -/
def is_leap_year (year : Nat) : Bool :=
  if year % 4 ≠ 0 then false
  else if year % 100 ≠ 0 then true
  else decide (year % 400 = 0)

/-- The month-length table `days[13]` of src/gps.c lines 355-357, indexed here by
month number 1..12 (the C code indexes `days[month-1]`).  The February entry
`days[1]` is kept equal to `is_leap_year(year)` for the loop's current `year`:
the C code assigns it before the loop (line 366) and again at every year
increment (line 374), which are exactly the points where `year` changes, so at
every read the entry agrees with this function of the current year.  The
thirteenth C array element is zero-initialised and never read with month ≤ 12. -/
def month_days (year : Nat) : Nat → Nat
  | 1 => 31
  | 2 => if is_leap_year year then 29 else 28
  | 3 => 31
  | 4 => 30
  | 5 => 31
  | 6 => 30
  | 7 => 31
  | 8 => 31
  | 9 => 30
  | 10 => 31
  | 11 => 30
  | 12 => 31
  | _ => 0

/-- The epoch-correction `while` loop of src/gps.c lines 368-377, followed by the
final `day += correction` of line 378.  `correction` is an `unsigned char`, so
the `correction -= days[month-1]` of line 376 is performed modulo 256.  The loop
first increments `month` (wrapping 12 → 1 with a year increment) and then
subtracts the day count of the *new* month.  The C loop has no termination
guarantee, hence the explicit fuel; `none` means the loop was still running
after `fuel` iterations. -/
def epoch_loop : Nat → Nat → Nat → Nat → Nat → Option (Nat × Nat × Nat)
  | 0, _, _, _, _ => none
  | fuel + 1, day, month, year, corr =>
    if day + corr > month_days year month then
      let month1 := month + 1
      let year1 := if month1 > 12 then year + 1 else year
      let month2 := if month1 > 12 then 1 else month1
      epoch_loop fuel day month2 year1 ((corr + 256 - month_days year1 month2) % 256)
    else
      some (day + corr, month, year)

/-- Stepping a calendar date `(day, month, year)` forward by one day, with
month lengths given by `month_days`.  This is the reference meaning of adding
days to a date, used to state what the epoch correction of src/gps.c line 359
("Add 19 years and 229 days") is documented to produce. -/
def next_day : Nat × Nat × Nat → Nat × Nat × Nat
  | (day, month, year) =>
    if day < month_days year month then (day + 1, month, year)
    else if month < 12 then (1, month + 1, year)
    else (1, 1, year + 1)

/-- A calendar date advanced by `n` days. -/
def advance_days (n : Nat) (d : Nat × Nat × Nat) : Nat × Nat × Nat :=
  next_day^[n] d

/-- XOR of all elements of a byte list. -/
def xor_all (l : List Nat) : Nat :=
  l.foldr (fun a b => a ^^^ b) 0

/-- The Magellan checksum computation of src/gps.c lines 342-344:
`csm = gps_packet[2]` followed by `csm ^= gps_packet[i]` for
`i = 3 .. gps_packet_length - 3`. -/
def magellan_checksum (packet : List Nat) : Nat :=
  ((packet.drop 3).take (packet.length - 5)).foldl (fun a b => a ^^^ b) (packet.getD 2 0)

/-- Modelled from the spec (section 4.4 wording, for comparison with the code's
`magellan_checksum`): an XOR over the payload span strictly between the
sentence-type byte (index 2) and the checksum byte (index length - 2),
exclusive of both. -/
def magellan_checksum_spec_words (packet : List Nat) : Nat :=
  xor_all ((packet.drop 3).take (packet.length - 5))

/-- The timestamp built from a valid Magellan time sentence (src/gps.c lines
359-388): hour/minute/second from bytes 4-6, the raw date from bytes 7-10 (year
big-endian) pushed through the epoch correction, and the `locked` flag taken
from `gps_magellan_locked` (the argument `locked`), not from the sentence. -/
def magellan_time_timestamp (fuel : Nat) (packet : List Nat) (locked : Bool) :
    Option Timestamp :=
  let yearRaw := ((packet.getD 9 0 <<< 8) &&& 0xFF00) ||| (packet.getD 10 0 &&& 0xFF)
  match epoch_loop fuel (packet.getD 7 0) (packet.getD 8 0) (yearRaw + 19) 229 with
  | none => none
  | some (day, month, year) =>
    some { hours := packet.getD 4 0, minutes := packet.getD 5 0, seconds := packet.getD 6 0
           day := day, month := month, year := year, locked := locked }

/-- The Magellan completion handler of src/gps.c lines 331-420, entered when the
accumulated packet reaches `gps_magellan_length` bytes (so `packet` here is the
full sentence and `s.packetType` is `magellanTime` or `magellanStatus`).  On
every path the packet accumulator is reset (`gps_packet_type = UNKNOWN_PACKET`,
`gps_packet_length = 0`, lines 417-418) and the `updated` flag is returned.
`none` reports that the epoch-correction loop inside `set_time`'s argument
construction was still running after `fuel` iterations (the C code would not
have returned at all). -/
def magellan_complete (fuel : Nat) (packet : List Nat) (s : SysState) :
    Option (SysState × Bool) :=
  let reset := fun (st : SysState) =>
    { st with packetType := PacketType.unknown, packetLength := 0 }
  if packet.getD (packet.length - 1) 0 = 0x0A then
    if magellan_checksum packet = packet.getD (packet.length - 2) 0 then
      if s.packetType = PacketType.magellanTime then
        match magellan_time_timestamp fuel packet s.magellanLocked with
        | none => none
        | some t => some (reset (set_time t s), true)
      else if s.packetType = PacketType.magellanStatus then
        if s.magellanLocked = (packet.getD 13 0 == 6) then
          some (reset s, false)
        else
          some (reset { s with magellanLocked := packet.getD 13 0 == 6 }, true)
      else
        some (reset { s with badPacketMessages := s.badPacketMessages + 1 }, false)
    else
      some (reset { s with checksumFailMessages := s.checksumFailMessages + 1 }, false)
  else
    some (reset { s with badPacketMessages := s.badPacketMessages + 1 }, false)

/-- Result of the packet-synchronizer scan loop (src/gps.c lines 222-270).
`found` reports the recognised packet type, the new `gps_magellan_length` when
one is assigned, the value of `bytes_to_sync` after the match, and whether the
skipped-byte diagnostic of line 247 was emitted.  `exhausted` reports the
counter when the unread data ran out without a match. -/
inductive SyncResult where
  | found (ptype : PacketType) (newMagellanLength : Option Nat)
      (bytesToSync : Nat) (skippedLogged : Bool)
  | exhausted (bytesToSync : Nat)
deriving DecidableEq, Repr

/-- The packet-synchronizer scan loop (src/gps.c lines 222-270).  `h1 h2 h3 h4`
are the bytes of the circular input buffer at offsets read-1 .. read-4 (the
retained history), `bts` is the `unsigned char` counter `bytes_to_sync`, and
the list holds the unread bytes from the read cursor on.  A Magellan preamble
(`$$` preceded by a 0x0A terminator, sentence code A or H) zeroes the counter
after logging it when above 3; an unrecognised Magellan sentence code logs and
keeps scanning; a Trimble preamble (0x10 0x8F 0xAB preceded by 0x10 0x03)
stops the scan without touching the counter. -/
def gps_sync : List Nat → Nat → Nat → Nat → Nat → Nat → SyncResult
  | [], bts, _, _, _, _ => SyncResult.exhausted bts
  | b :: rest, bts, h1, h2, h3, h4 =>
    if h1 = 36 ∧ h2 = 36 ∧ h3 = 0x0A then
      if b = 65 then
        SyncResult.found PacketType.magellanTime (some 13) 0 (decide (bts > 3))
      else if b = 72 then
        SyncResult.found PacketType.magellanStatus (some 16) 0 (decide (bts > 3))
      else
        gps_sync rest ((bts + 1) % 256) b h1 h2 h3
    else if b = 0xAB ∧ h1 = 0x8F ∧ h2 = DLE ∧ h3 = ETX ∧ h4 = DLE then
      SyncResult.found PacketType.trimble none bts false
    else
      gps_sync rest ((bts + 1) % 256) b h1 h2 h3

/-- Result of one call's worth of Trimble packet accumulation.  `complete`
carries the 21-byte packet; `exhausted` carries the partial packet together
with the last raw input byte consumed (`gps_input_buffer[gps_input_read - 1]`
as seen by the next call — the skip of line 286 can advance the cursor past a
byte at the end of the available data, in which case that skipped byte is the
retained history). -/
inductive TrimbleStep where
  | complete (packet : List Nat)
  | exhausted (packet : List Nat) (prev : Nat)
deriving DecidableEq, Repr

/-- The Trimble accumulation loop of src/gps.c lines 279-320.  `prev` is the
byte of the circular input buffer just before the read cursor.  A DLE whose
predecessor byte is also DLE is skipped (`gps_input_read++`, line 286) and the
byte after it is stored without a further pair check ("Don't loop this",
line 282); every stored byte is checked against the fixed total length 21. -/
def trimble_accum : List Nat → Nat → List Nat → TrimbleStep
  | [], prev, packet => TrimbleStep.exhausted packet prev
  | b :: rest, prev, packet =>
    if b = DLE ∧ prev = DLE then
      match rest with
      | [] => TrimbleStep.exhausted packet b
      | c :: rest2 =>
        if (packet ++ [c]).length = 21 then TrimbleStep.complete (packet ++ [c])
        else trimble_accum rest2 c (packet ++ [c])
    else
      if (packet ++ [b]).length = 21 then TrimbleStep.complete (packet ++ [b])
      else trimble_accum rest b (packet ++ [b])

/-- The sanity check and timestamp extraction of src/gps.c lines 296-313 for a
completed 21-byte Trimble packet: the packet must end in DLE ETX, and then the
timestamp is built from bytes 11-18 (year big-endian across bytes 17-18,
`locked` iff byte 11 equals 0x03).  `none` means the packet was rejected as
malformed (bad-packet diagnostic, no timestamp published). -/
def trimble_publish (packet : List Nat) : Option Timestamp :=
  if packet.getD 20 0 = ETX ∧ packet.getD 19 0 = DLE then
    some { hours := packet.getD 14 0, minutes := packet.getD 13 0
           seconds := packet.getD 12 0, day := packet.getD 15 0
           month := packet.getD 16 0
           year := ((packet.getD 17 0 <<< 8) &&& 0xFF00) ||| (packet.getD 18 0 &&& 0xFF)
           locked := packet.getD 11 0 == 3 }
  else none

/-- Observable outcome of the Trimble branch of `gps_process_buffer` for one
call: the packet accumulator state left behind, the timestamp passed to
`set_time` (if any), and the function's return value. -/
structure TrimbleOut where
  packetType : PacketType
  packet : List Nat
  published : Option Timestamp
  ret : Bool
deriving DecidableEq, Repr

/-- The `case TRIMBLE_PACKET` branch of `gps_process_buffer` (src/gps.c lines
277-321): accumulate bytes; at 21 bytes validate and publish, then reset the
accumulator unconditionally (lines 316-317) and return TRUE; if the input runs
out first, keep the partial packet and fall through to `return FALSE`. -/
def trimble_branch (input : List Nat) (prev : Nat) (packet : List Nat) : TrimbleOut :=
  match trimble_accum input prev packet with
  | TrimbleStep.complete P =>
    { packetType := PacketType.unknown, packet := []
      published := trimble_publish P, ret := true }
  | TrimbleStep.exhausted p _ =>
    { packetType := PacketType.trimble, packet := p
      published := none, ret := false }

/-- The escape-doubling of the Trimble wire protocol: every payload byte equal
to the framing byte DLE is transmitted twice. -/
def trimble_escape : List Nat → List Nat
  | [] => []
  | b :: rest =>
    if b = DLE then DLE :: DLE :: trimble_escape rest
    else b :: trimble_escape rest

/-- Concrete state for exercising the exposure countdown: link TimeGood, sync
finished, exposure length 2 (used to instantiate the countdown property). -/
def c7s : SysState :=
  { initState with
    gpsState := GpsLink.timeGood
    exposureSyncing := false
    exposureCount := 2
    exposureTotal := 2 }

/-- Concrete state for exercising the missed-PPS path of `set_time`: countdown
Enabled mid-exposure with 5 seconds remaining. -/
def c6s : SysState :=
  { initState with
    countdownMode := CountdownMode.enabled
    exposureTotal := 5
    exposureCount := 5
    gpsState := GpsLink.timeGood }

/-- A well-formed 13-byte Magellan time sentence: `$$A`, unknown byte 0,
12:30:00, raw date 1 January 1990 (year bytes 7,198), checksum 146, linefeed. -/
def c10Packet : List Nat :=
  [36, 36, 65, 0, 12, 30, 0, 1, 1, 7, 198, 146, 10]

/-- The timestamp the decoder publishes for `c10Packet` when the stored
Magellan lock flag is false: raw 1 January 1990 shifted by the (buggy) epoch
correction to 18 August 2009. -/
def c10Time : Timestamp :=
  { hours := 12, minutes := 30, seconds := 0, day := 18, month := 8, year := 2009
    locked := false }

/-- Startup state with a completed Magellan time sentence pending. -/
def c10State : SysState :=
  { initState with packetType := PacketType.magellanTime }

/-- The 13-byte Magellan sentence of `c10Packet` with its payload corrupted
(bytes 3..8 overwritten) and the checksum byte set to 193, which is the XOR of
bytes 3..10 only — i.e. the value prescribed by the spec's words, which exclude
the sentence-type byte from the checksum. -/
def c5Packet : List Nat :=
  [36, 36, 65, 1, 1, 1, 1, 1, 1, 7, 198, 193, 10]

/-- Startup state with a completed Magellan time sentence pending (dedicated to
the checksum-span analysis). -/
def c5State : SysState :=
  { initState with packetType := PacketType.magellanTime }

/-- A Magellan time sentence with a checksum mismatch (stored byte 0 instead of
the computed 146), for exercising the rejection path. -/
def c4BadPacket : List Nat :=
  [36, 36, 65, 0, 12, 30, 0, 1, 1, 7, 198, 0, 10]

/-- Startup state with a completed Magellan time sentence pending (dedicated to
the corruption-rejection analysis). -/
def c4State : SysState :=
  { initState with packetType := PacketType.magellanTime }

theorem set_time_lastTimestamp (t : Timestamp) (s : SysState) :
    (set_time t s).lastTimestamp = t := by
  unfold set_time
  dsimp only
  split_ifs <;> rfl

theorem set_time_magellanLocked (t : Timestamp) (s : SysState) :
    (set_time t s).magellanLocked = s.magellanLocked := by
  unfold set_time
  dsimp only
  split_ifs <;> rfl

/-- Claim C2: the epoch correction is claimed to terminate on every valid raw
date and to yield that date advanced by exactly 19 years and 229 days.  The
code violates this: for the raw date 16 January 1989 the loop of src/gps.c
lines 368-377 (whose `unsigned char` correction underflows modulo 256)
terminates with 26 January 2010, whereas 16 January 1989 advanced by 19 years
and 229 days is 1 September 2008. -/
theorem karaka_c2_epoch_incorrect :
    epoch_loop 100 16 1 (1989 + 19) 229 = some (26, 1, 2010)
    ∧ advance_days 229 (16, 1, 1989 + 19) = (1, 9, 2008)
    ∧ ((26, 1, 2010) : Nat × Nat × Nat) ≠ (1, 9, 2008) := by
  refine ⟨by decide, by decide, by decide⟩

/-- The claim C6 describes the state in which the PPS edge has already been
serviced ("processed normally with no forced trigger") as Enabled.  In the
code the opposite holds: delivering a timestamp while the countdown is Enabled
is exactly the missed-PPS case and does force a countdown trigger
(src/gps.c lines 138-145). -/
theorem karaka_c6_counterexample :
    (set_time zeroTimestamp c6s).downloadTriggers = 1 ∧ c6s.downloadTriggers = 0 := by
  exact ⟨by decide, by decide⟩

/-- Claim C6 (amended): in every state where the countdown is Enabled with a
positive remaining counter, a new valid timestamp arriving before any further
PPS edge produces exactly one forced countdown trigger and one missed-PPS
warning, and leaves the countdown Triggered so that an immediately following
timestamp does not trigger again; if the prior PPS edge already advanced the
mode from Enabled to Triggered, the timestamp is processed normally with no
forced trigger and no warning (src/gps.c lines 133-166). -/
theorem karaka_c6_amended (s : SysState) (t t2 : Timestamp)
    (hmode : s.countdownMode = CountdownMode.enabled) (hcount : 0 < s.exposureCount) :
    (set_time t s).downloadTriggers = s.downloadTriggers + 1
    ∧ (set_time t s).missedPpsMessages = s.missedPpsMessages + 1
    ∧ (set_time t s).countdownMode = CountdownMode.triggered
    ∧ (set_time t2 (set_time t s)).downloadTriggers = s.downloadTriggers + 1
    ∧ (set_time t2 (set_time t s)).missedPpsMessages = s.missedPpsMessages + 1
    ∧ (∀ s2 : SysState, s2.countdownMode = CountdownMode.triggered →
        (set_time t2 s2).downloadTriggers = s2.downloadTriggers
        ∧ (set_time t2 s2).missedPpsMessages = s2.missedPpsMessages
        ∧ (set_time t2 s2).countdownMode = CountdownMode.enabled) := by
  have hfirst : set_time t s =
      { s with
        countdownMode := CountdownMode.triggered
        exposureCount := s.exposureTotal
        recordSynctime := false
        downloadTriggers := s.downloadTriggers + 1
        missedPpsMessages := s.missedPpsMessages + 1
        lastTimestamp := t
        gpsState := GpsLink.active
        lastSynctime := t
        sentDownloadTimestamps := s.sentDownloadTimestamps + 1
        sentTimestamps := s.sentTimestamps + 1 } := by
    unfold set_time trigger_countdown
    dsimp only
    rw [hmode]
    simp
  have hnormal : ∀ s2 : SysState, s2.countdownMode = CountdownMode.triggered →
      (set_time t2 s2).downloadTriggers = s2.downloadTriggers
      ∧ (set_time t2 s2).missedPpsMessages = s2.missedPpsMessages
      ∧ (set_time t2 s2).countdownMode = CountdownMode.enabled := by
    intro s2 h2
    unfold set_time
    dsimp only
    rw [h2]
    by_cases hrec : s2.recordSynctime <;> simp [hrec]
  refine ⟨?_, ?_, ?_, ?_, ?_, hnormal⟩
  · rw [hfirst]
  · rw [hfirst]
  · rw [hfirst]
  · rw [hfirst, (hnormal _ rfl).1]
  · rw [hfirst, (hnormal _ rfl).2.1]

theorem karaka_c6_witness :
    (set_time zeroTimestamp c6s).missedPpsMessages = c6s.missedPpsMessages + 1 :=
  (karaka_c6_amended c6s zeroTimestamp zeroTimestamp (by decide) (by decide)).2.1

/-- Claim C7: from link TimeGood, sync finished, counter and exposure length
both N (0 < N < 256, the counter being an `unsigned char`), the first N-1 PPS
edges only decrement the counter, and the Nth edge reloads the counter to N,
marks the next valid timestamp for recording as the synchronized exposure
start, and raises the exposure trigger (src/main.c lines 83-98). -/
theorem karaka_c7 (n : Nat) (s : SysState)
    (hgps : s.gpsState = GpsLink.timeGood) (hsync : s.exposureSyncing = false)
    (hcount : s.exposureCount = n) (htotal : s.exposureTotal = n)
    (hn : 0 < n) (hn256 : n < 256) :
    (∀ k, k < n → sig_interrupt0^[k] s = { s with exposureCount := n - k })
    ∧ sig_interrupt0^[n] s =
        { s with
          exposureCount := n
          recordSynctime := true
          downloadTriggers := s.downloadTriggers + 1 } := by
  have hstep : ∀ k, k < n → sig_interrupt0^[k] s = { s with exposureCount := n - k } := by
    intro k
    induction k with
    | zero =>
      intro _
      rw [Nat.sub_zero, ← hcount]
      rfl
    | succ k ih =>
      intro hk
      rw [Function.iterate_succ_apply', ih (Nat.lt_of_succ_lt hk)]
      unfold sig_interrupt0
      dsimp only
      rw [if_pos (⟨hgps, hsync⟩ : _ ∧ _)]
      have hc : (n - k + 255) % 256 = n - (k + 1) := by omega
      rw [hc, if_neg (by omega)]
  refine ⟨hstep, ?_⟩
  have hlast : sig_interrupt0^[n] s = sig_interrupt0 (sig_interrupt0^[n - 1] s) := by
    conv_lhs => rw [show n = (n - 1) + 1 by omega]
    rw [Function.iterate_succ_apply']
  rw [hlast, hstep (n - 1) (by omega)]
  unfold sig_interrupt0
  dsimp only
  rw [if_pos (⟨hgps, hsync⟩ : _ ∧ _)]
  have hone : n - (n - 1) = 1 := by omega
  rw [hone, if_pos (by norm_num), htotal]

theorem karaka_c7_witness :
    sig_interrupt0^[2] c7s =
      { c7s with
        exposureCount := 2
        recordSynctime := true
        downloadTriggers := c7s.downloadTriggers + 1 } :=
  (karaka_c7 2 c7s rfl rfl rfl rfl (by decide) (by decide)).2

/-- The claim C8 asserts that the first byte received after a watchdog timeout
discards any partially accumulated packet state.  It does not: the receive
interrupt (src/gps.c lines 182-191) only promotes the link to Syncing and
buffers the byte, leaving `gps_packet_type`, `gps_packet_length` and
`bytes_to_sync` untouched, as this concrete mid-packet state shows. -/
theorem karaka_c8_counterexample :
    (usart1_rx 36 { initState with
        packetType := PacketType.trimble, packetLength := 3 }).packetType
      = PacketType.trimble
    ∧ (usart1_rx 36 { initState with
        packetType := PacketType.trimble, packetLength := 3 }).packetLength = 3
    ∧ PacketType.trimble ≠ PacketType.unknown := by
  refine ⟨by decide, by decide, by decide⟩

/-- Claim C8 (amended): the watchdog overflow sets the link Unavailable, and a
second overflow during the same silence leaves the link state unchanged (the
transition happens once); the next received byte moves the link from
Unavailable to Syncing, but the partially accumulated packet state (packet
type, packet length, sync counter) is retained rather than discarded
(src/gps.c lines 173-191). -/
theorem karaka_c8_amended (s : SysState) (b : Nat) :
    (timer1_ovf s).gpsState = GpsLink.unavailable
    ∧ (timer1_ovf (timer1_ovf s)).gpsState = (timer1_ovf s).gpsState
    ∧ (usart1_rx b (timer1_ovf s)).gpsState = GpsLink.syncing
    ∧ (usart1_rx b s).packetType = s.packetType
    ∧ (usart1_rx b s).packetLength = s.packetLength
    ∧ (usart1_rx b s).bytesToSync = s.bytesToSync := by
  unfold usart1_rx timer1_ovf
  split_ifs <;> simp_all

/-- The claim C9 asserts the skipped-byte counter is reset on every successful
resynchronization, including a binary-protocol (Trimble) preamble.  It is not:
scanning the five bytes 0x10 0x03 0x10 0x8F 0xAB from a clean state recognises
the Trimble preamble with `bytes_to_sync` left at 4 (the Trimble arm of
src/gps.c lines 257-269 neither logs nor zeroes the counter). -/
theorem karaka_c9_counterexample :
    gps_sync [16, 3, 16, 143, 171] 0 0 0 0 0
      = SyncResult.found PacketType.trimble none 4 false
    ∧ (4 : Nat) ≠ 0 := by
  refine ⟨by decide, by decide⟩

/-- Claim C9 (amended): the skipped-byte counter is incremented once per byte
scanned past (modulo 256, being an `unsigned char`), including bytes of an
unrecognised Magellan sentence code; recognising a text-protocol preamble logs
the counter exactly when it exceeds 3 and resets it to zero; recognising a
binary-protocol preamble stops the scan with the counter retained, neither
logged nor reset (src/gps.c lines 222-270). -/
theorem karaka_c9_amended :
    (∀ (b : Nat) (rest : List Nat) (bts h1 h2 h3 h4 : Nat),
      ¬(h1 = 36 ∧ h2 = 36 ∧ h3 = 0x0A) →
      ¬(b = 0xAB ∧ h1 = 0x8F ∧ h2 = DLE ∧ h3 = ETX ∧ h4 = DLE) →
      gps_sync (b :: rest) bts h1 h2 h3 h4 = gps_sync rest ((bts + 1) % 256) b h1 h2 h3)
    ∧ (∀ (b : Nat) (rest : List Nat) (bts h4 : Nat),
      b ≠ 65 → b ≠ 72 →
      gps_sync (b :: rest) bts 36 36 0x0A h4 = gps_sync rest ((bts + 1) % 256) b 36 36 0x0A)
    ∧ (∀ (rest : List Nat) (bts h4 : Nat),
      gps_sync (65 :: rest) bts 36 36 0x0A h4
        = SyncResult.found PacketType.magellanTime (some 13) 0 (decide (bts > 3))
      ∧ gps_sync (72 :: rest) bts 36 36 0x0A h4
        = SyncResult.found PacketType.magellanStatus (some 16) 0 (decide (bts > 3)))
    ∧ (∀ (rest : List Nat) (bts : Nat),
      gps_sync (0xAB :: rest) bts 0x8F DLE ETX DLE
        = SyncResult.found PacketType.trimble none bts false) := by
  refine ⟨?_, ?_, ?_, ?_⟩
  · intro b rest bts h1 h2 h3 h4 hm ht
    simp only [gps_sync]
    rw [if_neg hm, if_neg ht]
  · intro b rest bts h4 hA hH
    simp [gps_sync, hA, hH]
  · intro rest bts h4
    constructor <;> simp [gps_sync]
  · intro rest bts
    simp [gps_sync]

theorem karaka_c9_witness :
    gps_sync [65] 5 36 36 0x0A 0
        = SyncResult.found PacketType.magellanTime (some 13) 0 (decide ((5 : Nat) > 3))
    ∧ gps_sync [171] 7 0x8F DLE ETX DLE
        = SyncResult.found PacketType.trimble none 7 false
    ∧ gps_sync [66] 5 36 36 0x0A 0 = gps_sync [] ((5 + 1) % 256) 66 36 36 0x0A :=
  ⟨(karaka_c9_amended.2.2.1 [] 5 0 ).1, karaka_c9_amended.2.2.2 [] 7,
    karaka_c9_amended.2.1 66 [] 5 0 (by decide) (by decide)⟩

theorem xor_all_cons (a : Nat) (l : List Nat) : xor_all (a :: l) = a ^^^ xor_all l := rfl

theorem xor_foldl (l : List Nat) (a : Nat) :
    l.foldl (fun x y => x ^^^ y) a = a ^^^ xor_all l := by
  induction l generalizing a with
  | nil => simp [xor_all]
  | cons b t ih => simp [List.foldl_cons, ih (a ^^^ b), xor_all_cons, Nat.xor_assoc]

theorem xor_all_append (l1 l2 : List Nat) :
    xor_all (l1 ++ l2) = xor_all l1 ^^^ xor_all l2 := by
  induction l1 with
  | nil => simp [xor_all]
  | cons a t ih => simp [xor_all_cons, ih, Nat.xor_assoc]

/-- The checksum actually computed by src/gps.c lines 342-344 is the XOR of the
packet bytes from index 2 (the sentence-type byte, included) up to but not
including index length - 2 (the stored checksum byte). -/
theorem checksum_span (packet : List Nat) (h : 5 ≤ packet.length) :
    magellan_checksum packet = xor_all ((packet.drop 2).take (packet.length - 4)) := by
  rcases packet with _ | ⟨a, _ | ⟨b, _ | ⟨c, t⟩⟩⟩ <;> simp_all
  have ht : 2 ≤ t.length := by omega
  unfold magellan_checksum
  simp only [List.drop_succ_cons, List.drop_zero, List.length_cons, List.getD_cons_succ,
    List.getD_cons_zero]
  rw [xor_foldl]
  rw [show t.length + 1 + 1 + 1 - 5 = t.length - 2 by omega,
      show t.length - 1 = (t.length - 2) + 1 by omega,
      List.take_succ_cons, xor_all_cons]

/-- Claim C4: corrupting any single byte of the checksummed span of a Magellan
sentence (any byte from the sentence-type byte up to, but not including, the
stored checksum byte) changes the computed XOR checksum; and any completed
sentence whose stored checksum does not match the computed one, or whose final
byte is not the linefeed 0x0A, is rejected: the shared timestamp and the
Magellan lock flag are unchanged and the routine reports no update
(src/gps.c lines 331-420). -/
theorem karaka_c4 :
    (∀ (pre suf : List Nat) (x b : Nat), 2 ≤ pre.length → 2 ≤ suf.length → b ≠ x →
      magellan_checksum (pre ++ x :: suf) ≠ magellan_checksum (pre ++ b :: suf))
    ∧ (∀ (fuel : Nat) (packet : List Nat) (s : SysState),
        packet.getD (packet.length - 1) 0 ≠ 0x0A
          ∨ magellan_checksum packet ≠ packet.getD (packet.length - 2) 0 →
        ∃ s2, magellan_complete fuel packet s = some (s2, false)
          ∧ s2.lastTimestamp = s.lastTimestamp ∧ s2.magellanLocked = s.magellanLocked) := by
  constructor
  · intro pre suf x b hpre hsuf hne
    have hspan : ∀ y : Nat, magellan_checksum (pre ++ y :: suf)
        = xor_all (pre.drop 2) ^^^ (y ^^^ xor_all (suf.take (suf.length - 2))) := by
      intro y
      rw [checksum_span _ (by simp; omega)]
      have e1 : (pre ++ y :: suf).drop 2 = pre.drop 2 ++ y :: suf := by
        rw [List.drop_append_eq_append_drop, show 2 - pre.length = 0 by omega, List.drop_zero]
      have e2 : (pre ++ y :: suf).length - 4 = (pre.drop 2).length + ((suf.length - 2) + 1) := by
        simp only [List.length_append, List.length_cons, List.length_drop]
        omega
      rw [e1, e2, List.take_append_eq_append_take,
          List.take_of_length_le (Nat.le_add_right _ _), Nat.add_sub_cancel_left,
          List.take_succ_cons, xor_all_append, xor_all_cons]
    intro heq
    rw [hspan x, hspan b] at heq
    exact hne (Nat.xor_left_inj.mp (Nat.xor_right_inj.mp heq)).symm
  · intro fuel packet s hbad
    by_cases hlf : packet.getD (packet.length - 1) 0 = 0x0A
    · have hcs : magellan_checksum packet ≠ packet.getD (packet.length - 2) 0 := by
        rcases hbad with h | h
        · exact absurd hlf h
        · exact h
      unfold magellan_complete
      dsimp only
      rw [if_pos hlf, if_neg hcs]
      exact ⟨_, rfl, rfl, rfl⟩
    · unfold magellan_complete
      dsimp only
      rw [if_neg hlf]
      exact ⟨_, rfl, rfl, rfl⟩

theorem karaka_c4_witness :
    magellan_checksum ([36, 36] ++ 65 :: [0, 0]) ≠ magellan_checksum ([36, 36] ++ 66 :: [0, 0])
    ∧ ∃ s2, magellan_complete 100 c4BadPacket c4State = some (s2, false)
        ∧ s2.lastTimestamp = c4State.lastTimestamp
        ∧ s2.magellanLocked = c4State.magellanLocked :=
  ⟨karaka_c4.1 [36, 36] [0, 0] 65 66 (by decide) (by decide) (by decide),
   karaka_c4.2 100 c4BadPacket c4State (Or.inr (by decide))⟩

/-- The claim C5 asserts the compared checksum excludes both the sentence-type
byte and the checksum byte from the XOR.  The code includes the sentence-type
byte (`csm = gps_packet[2]`, src/gps.c line 342): on the concrete sentence
`c5Packet` the code computes 128 while the XOR excluding the type byte is 193,
and a sentence whose stored checksum byte carries that spec-prescribed value
193 is rejected by the decoder. -/
theorem karaka_c5_counterexample :
    magellan_checksum c5Packet = 128
    ∧ magellan_checksum_spec_words c5Packet = 193
    ∧ c5Packet.getD (c5Packet.length - 2) 0 = 193
    ∧ (magellan_complete 100 c5Packet c5State).map (fun p => p.2) = some false := by
  refine ⟨by decide, by decide, by decide, by decide⟩

/-- Claim C5 (amended): the XOR checksum the decoder compares against the
stored checksum byte is computed over the span from the sentence-type byte
(index 2, included) up to but excluding the stored checksum byte (index
length - 2): it equals the sentence-type byte XORed with the strictly-between
span that the spec describes (src/gps.c lines 342-347). -/
theorem karaka_c5_amended (packet : List Nat) (h5 : 5 ≤ packet.length) :
    magellan_checksum packet = packet.getD 2 0 ^^^ magellan_checksum_spec_words packet
    ∧ magellan_checksum packet = xor_all ((packet.drop 2).take (packet.length - 4)) :=
  ⟨xor_foldl _ _, checksum_span packet h5⟩

theorem karaka_c5_witness :
    magellan_checksum c10Packet = c10Packet.getD 2 0 ^^^ magellan_checksum_spec_words c10Packet
    ∧ magellan_checksum c10Packet
        = xor_all ((c10Packet.drop 2).take (c10Packet.length - 4)) :=
  karaka_c5_amended c10Packet (by decide)

/-- Claim C10: a timestamp published from a valid Magellan time sentence
carries as its `locked` flag the value stored by the most recently accepted
status sentence (`gps_magellan_locked`, src/gps.c lines 44 and 387), never a
field of the time sentence itself; a valid status sentence stores
`gps_packet[13] == 6` as the new flag (lines 390-397); and the flag is false at
startup. -/
theorem karaka_c10 :
    (∀ (fuel : Nat) (packet : List Nat) (s : SysState) (t : Timestamp),
      s.packetType = PacketType.magellanTime →
      packet.getD (packet.length - 1) 0 = 0x0A →
      magellan_checksum packet = packet.getD (packet.length - 2) 0 →
      magellan_time_timestamp fuel packet s.magellanLocked = some t →
      t.locked = s.magellanLocked
      ∧ ∃ s2, magellan_complete fuel packet s = some (s2, true)
          ∧ s2.lastTimestamp = t ∧ s2.lastTimestamp.locked = s.magellanLocked
          ∧ s2.magellanLocked = s.magellanLocked)
    ∧ (∀ (fuel : Nat) (packet : List Nat) (s : SysState),
      s.packetType = PacketType.magellanStatus →
      packet.getD (packet.length - 1) 0 = 0x0A →
      magellan_checksum packet = packet.getD (packet.length - 2) 0 →
      ∃ s2 u, magellan_complete fuel packet s = some (s2, u)
          ∧ s2.magellanLocked = (packet.getD 13 0 == 6))
    ∧ initState.magellanLocked = false := by
  refine ⟨?_, ?_, rfl⟩
  · intro fuel packet s t htype hlf hcs ht
    have hlocked : t.locked = s.magellanLocked := by
      unfold magellan_time_timestamp at ht
      dsimp only at ht
      split at ht
      · exact absurd ht (by simp)
      · cases ht
        rfl
    refine ⟨hlocked, ?_⟩
    unfold magellan_complete
    dsimp only
    rw [if_pos hlf, if_pos hcs, if_pos htype, ht]
    refine ⟨_, rfl, ?_, ?_, ?_⟩
    · exact set_time_lastTimestamp t s
    · rw [show ({ set_time t s with
          packetType := PacketType.unknown, packetLength := 0 } : SysState).lastTimestamp
            = (set_time t s).lastTimestamp from rfl, set_time_lastTimestamp]
      exact hlocked
    · exact set_time_magellanLocked t s
  · intro fuel packet s htype hlf hcs
    unfold magellan_complete
    dsimp only
    rw [if_pos hlf, if_pos hcs, if_neg (by simp [htype]), if_pos htype]
    by_cases hb : s.magellanLocked = (packet.getD 13 0 == 6)
    · rw [if_pos hb]
      exact ⟨_, _, rfl, hb⟩
    · rw [if_neg hb]
      exact ⟨_, _, rfl, rfl⟩

theorem karaka_c10_witness :
    c10Time.locked = c10State.magellanLocked
    ∧ ∃ s2, magellan_complete 100 c10Packet c10State = some (s2, true)
        ∧ s2.lastTimestamp = c10Time ∧ s2.lastTimestamp.locked = c10State.magellanLocked
        ∧ s2.magellanLocked = c10State.magellanLocked :=
  karaka_c10.1 100 c10Packet c10State c10Time rfl (by decide) (by decide) (by decide)

theorem trimble_accum_store (b : Nat) (rest : List Nat) (prev : Nat) (packet : List Nat)
    (h : ¬(b = DLE ∧ prev = DLE)) (hlen : packet.length + 1 ≠ 21) :
    trimble_accum (b :: rest) prev packet = trimble_accum rest b (packet ++ [b]) := by
  cases rest with
  | nil =>
    simp only [trimble_accum]
    rw [if_neg h, if_neg (by simpa using hlen)]
  | cons c r =>
    simp only [trimble_accum]
    rw [if_neg h, if_neg (by simpa using hlen)]

theorem trimble_accum_store_last (b : Nat) (rest : List Nat) (prev : Nat) (packet : List Nat)
    (h : ¬(b = DLE ∧ prev = DLE)) (hlen : packet.length + 1 = 21) :
    trimble_accum (b :: rest) prev packet = TrimbleStep.complete (packet ++ [b]) := by
  cases rest with
  | nil =>
    simp only [trimble_accum]
    rw [if_neg h, if_pos (by simpa using hlen)]
  | cons c r =>
    simp only [trimble_accum]
    rw [if_neg h, if_pos (by simpa using hlen)]

theorem trimble_accum_skip (c : Nat) (rest2 : List Nat) (packet : List Nat)
    (hlen : packet.length + 1 ≠ 21) :
    trimble_accum (DLE :: c :: rest2) DLE packet = trimble_accum rest2 c (packet ++ [c]) := by
  simp only [trimble_accum]
  rw [if_pos (by simp), if_neg (by simpa using hlen)]

theorem trimble_accum_skip_last (c : Nat) (rest2 : List Nat) (packet : List Nat)
    (hlen : packet.length + 1 = 21) :
    trimble_accum (DLE :: c :: rest2) DLE packet = TrimbleStep.complete (packet ++ [c]) := by
  simp only [trimble_accum]
  rw [if_pos (by simp), if_pos (by simpa using hlen)]

theorem trimble_accum_skip_end (packet : List Nat) :
    trimble_accum [DLE] DLE packet = TrimbleStep.exhausted packet DLE := by
  simp only [trimble_accum]
  rw [if_pos (by simp)]

/-- Claim C3: in the Trimble accumulation loop, a doubled DLE contributes a
single literal DLE to the packet and accumulation simply continues (first
conjunct); after a collapsed pair, a third consecutive DLE is stored as packet
data, where it can serve as the real frame terminator (second conjunct, with
the 21-byte completion firing on the closing ETX); and the collapse behaves
identically when the doubled pair straddles the boundary of the available
unread data between two calls, because the skip of src/gps.c lines 284-286
keys on the retained previous buffer byte (third conjunct). -/
theorem karaka_c3 (prev : Nat) (packet : List Nat) (c : Nat) (r2 : List Nat)
    (hprev : prev ≠ DLE) (hroom : packet.length + 2 ≤ 20) :
    trimble_accum (DLE :: DLE :: c :: r2) prev packet
      = trimble_accum r2 c (packet ++ [DLE, c])
    ∧ (packet.length = 18 →
      trimble_accum [DLE, DLE, DLE, ETX] prev packet
        = TrimbleStep.complete (packet ++ [DLE, DLE, ETX]))
    ∧ trimble_accum [DLE] prev packet = TrimbleStep.exhausted (packet ++ [DLE]) DLE
    ∧ trimble_accum (DLE :: c :: r2) DLE (packet ++ [DLE])
        = trimble_accum (DLE :: DLE :: c :: r2) prev packet := by
  have hpair : trimble_accum (DLE :: DLE :: c :: r2) prev packet
      = trimble_accum r2 c (packet ++ [DLE, c]) := by
    rw [trimble_accum_store DLE (DLE :: c :: r2) prev packet (by simp [hprev]) (by omega),
        trimble_accum_skip c r2 (packet ++ [DLE]) (by simp; omega)]
    simp
  refine ⟨hpair, ?_, ?_, ?_⟩
  · intro h18
    rw [trimble_accum_store DLE [DLE, DLE, ETX] prev packet (by simp [hprev]) (by omega),
        trimble_accum_skip DLE [ETX] (packet ++ [DLE]) (by simp; omega),
        trimble_accum_store_last ETX [] DLE ((packet ++ [DLE]) ++ [DLE])
          (by simp [DLE, ETX]) (by simp [h18])]
    simp
  · rw [trimble_accum_store DLE [] prev packet (by simp [hprev]) (by omega)]
    rfl
  · rw [hpair, trimble_accum_skip c r2 (packet ++ [DLE]) (by simp; omega)]
    simp

theorem karaka_c3_witness :
    trimble_accum [DLE, DLE, 7, 9] 0xAB [DLE, 0x8F, 0xAB]
      = trimble_accum [9] 7 ([DLE, 0x8F, 0xAB] ++ [DLE, 7])
    ∧ trimble_accum [DLE] 0xAB [DLE, 0x8F, 0xAB]
      = TrimbleStep.exhausted ([DLE, 0x8F, 0xAB] ++ [DLE]) DLE
    ∧ trimble_accum (DLE :: 7 :: [9]) DLE ([DLE, 0x8F, 0xAB] ++ [DLE])
      = trimble_accum (DLE :: DLE :: 7 :: [9]) 0xAB [DLE, 0x8F, 0xAB] :=
  ⟨(karaka_c3 0xAB [DLE, 0x8F, 0xAB] 7 [9] (by decide) (by decide)).1,
   (karaka_c3 0xAB [DLE, 0x8F, 0xAB] 7 [9] (by decide) (by decide)).2.2.1,
   (karaka_c3 0xAB [DLE, 0x8F, 0xAB] 7 [9] (by decide) (by decide)).2.2.2⟩

/-- Decoding the escape-doubled wire form of a Trimble payload stores exactly
the payload: processing `trimble_escape u ++ [DLE, ETX]` from a packet with
`19 - u.length` bytes already stored completes with `packet ++ u ++ [DLE,
ETX]`.  The second conjunct is the intermediate configuration in which the
first byte of a doubled pair has just been stored and the pending second DLE
is about to be skipped. -/
theorem trimble_escape_complete :
    ∀ (n : Nat) (u : List Nat), u.length ≤ n → ∀ (packet : List Nat) (prev : Nat),
      packet.length + u.length = 19 →
      (prev ≠ DLE →
        trimble_accum (trimble_escape u ++ [DLE, ETX]) prev packet
          = TrimbleStep.complete (packet ++ u ++ [DLE, ETX]))
      ∧ trimble_accum (DLE :: (trimble_escape u ++ [DLE, ETX])) DLE packet
          = TrimbleStep.complete (packet ++ u ++ [DLE, ETX]) := by
  intro n
  induction n with
  | zero =>
    intro u hu packet prev hlen
    have hu0 : u = [] := List.length_eq_zero.mp (Nat.le_zero.mp hu)
    subst hu0
    simp only [List.length_nil, Nat.add_zero] at hlen
    simp only [trimble_escape, List.nil_append, List.append_nil]
    constructor
    · intro hprev
      rw [trimble_accum_store DLE [ETX] prev packet (by simp [hprev]) (by omega),
          trimble_accum_store_last ETX [] DLE (packet ++ [DLE]) (by simp [DLE, ETX])
            (by simp [hlen])]
      simp
    · rw [trimble_accum_skip DLE [ETX] packet (by omega),
          trimble_accum_store_last ETX [] DLE (packet ++ [DLE]) (by simp [DLE, ETX])
            (by simp [hlen])]
      simp
  | succ n ih =>
    intro u hu packet prev hlen
    match u with
    | [] => exact ih [] (Nat.zero_le n) packet prev hlen
    | a :: t =>
      simp only [List.length_cons] at hlen hu
      have ht : t.length ≤ n := by omega
      constructor
      · intro hprev
        by_cases ha : a = DLE
        · subst ha
          simp only [trimble_escape, if_true, List.cons_append]
          rw [trimble_accum_store DLE (DLE :: (trimble_escape t ++ [DLE, ETX])) prev packet
              (by simp [hprev]) (by omega)]
          rw [(ih t ht (packet ++ [DLE]) DLE (by simp; omega)).2]
          simp
        · simp only [trimble_escape, if_neg ha, List.cons_append]
          rw [trimble_accum_store a (trimble_escape t ++ [DLE, ETX]) prev packet
              (by simp [ha]) (by omega)]
          rw [(ih t ht (packet ++ [a]) a (by simp; omega)).1 ha]
          simp
      · by_cases ha : a = DLE
        · subst ha
          simp only [trimble_escape, if_true, List.cons_append]
          rw [trimble_accum_skip DLE (DLE :: (trimble_escape t ++ [DLE, ETX])) packet
              (by omega)]
          rw [(ih t ht (packet ++ [DLE]) DLE (by simp; omega)).2]
          simp
        · simp only [trimble_escape, if_neg ha, List.cons_append]
          rw [trimble_accum_skip a (trimble_escape t ++ [DLE, ETX]) packet (by omega)]
          rw [(ih t ht (packet ++ [a]) a (by simp; omega)).1 ha]
          simp

/-- The year assembly of src/gps.c line 305: for byte values, the masked
big-endian combination equals `256 * high + low`. -/
theorem year_word (a b : Nat) (ha : a < 256) (hb : b < 256) :
    ((a <<< 8) &&& 0xFF00) ||| (b &&& 0xFF) = 256 * a + b := by
  have hb' : b &&& 0xFF = b := by
    have e : (0xFF : Nat) = 2 ^ 8 - 1 := by norm_num
    rw [e, Nat.and_pow_two_sub_one_eq_mod, Nat.mod_eq_of_lt (by omega)]
  have ha' : a &&& 0xFF = a := by
    have e : (0xFF : Nat) = 2 ^ 8 - 1 := by norm_num
    rw [e, Nat.and_pow_two_sub_one_eq_mod, Nat.mod_eq_of_lt (by omega)]
  have hmask : (a <<< 8) &&& 0xFF00 = (a &&& 0xFF) <<< 8 := by
    have e : (0xFF00 : Nat) = 0xFF <<< 8 := by norm_num [Nat.shiftLeft_eq]
    rw [e]
    apply Nat.eq_of_testBit_eq
    intro i
    simp only [Nat.testBit_land, Nat.testBit_shiftLeft]
    by_cases h8 : 8 ≤ i <;> simp [h8]
  rw [hmask, ha', hb', Nat.shiftLeft_eq]
  rw [show a * 2 ^ 8 = 2 ^ 8 * a by ring, ← Nat.mul_add_lt_is_or (show b < 2 ^ 8 by omega) a]

/-- Claim C1: a well-formed binary-protocol packet — any 16-byte timing payload
sent with its DLEs escape-doubled and closed by the DLE ETX terminator pair —
decodes to a published timestamp whose fields are exactly the encoded ones
(hours byte 14, minutes 13, seconds 12, day 15, month 16, year big-endian from
bytes 17-18, locked iff byte 11 equals 0x03), and the packet accumulator is
left reset (type unknown, contents empty), the C code resetting it
unconditionally after any completed 21-byte packet (src/gps.c lines 277-320).
The state here is the post-synchronization one: header DLE 8F AB already
stored and the previous raw buffer byte being the 0xAB of the preamble. -/
theorem karaka_c1 (b3 b4 b5 b6 b7 b8 b9 b10 b11 b12 b13 b14 b15 b16 b17 b18 : Nat)
    (h17 : b17 < 256) (h18 : b18 < 256) :
    trimble_branch
      (trimble_escape [b3, b4, b5, b6, b7, b8, b9, b10, b11, b12, b13, b14, b15, b16, b17, b18]
        ++ [DLE, ETX]) 0xAB [DLE, 0x8F, 0xAB]
    = { packetType := PacketType.unknown
        packet := []
        published := some { hours := b14, minutes := b13, seconds := b12, day := b15
                            month := b16, year := 256 * b17 + b18, locked := b11 == 3 }
        ret := true }
    ∧ (∀ (input packet : List Nat) (prev : Nat) (P : List Nat),
        trimble_accum input prev packet = TrimbleStep.complete P →
        (trimble_branch input prev packet).packetType = PacketType.unknown
        ∧ (trimble_branch input prev packet).packet = []
        ∧ (trimble_branch input prev packet).published = trimble_publish P) := by
  constructor
  · have hacc := (trimble_escape_complete 16
      [b3, b4, b5, b6, b7, b8, b9, b10, b11, b12, b13, b14, b15, b16, b17, b18]
      (by simp) [DLE, 0x8F, 0xAB] 0xAB (by simp)).1 (by decide)
    have hpub : trimble_publish
        ([DLE, 0x8F, 0xAB]
          ++ [b3, b4, b5, b6, b7, b8, b9, b10, b11, b12, b13, b14, b15, b16, b17, b18]
          ++ [DLE, ETX])
        = some { hours := b14, minutes := b13, seconds := b12, day := b15, month := b16
                 year := 256 * b17 + b18, locked := b11 == 3 } := by
      unfold trimble_publish
      rw [if_pos (by constructor <;> rfl)]
      rw [show List.getD
            ([DLE, 0x8F, 0xAB]
              ++ [b3, b4, b5, b6, b7, b8, b9, b10, b11, b12, b13, b14, b15, b16, b17, b18]
              ++ [DLE, ETX]) 17 0 = b17 from rfl,
          show List.getD
            ([DLE, 0x8F, 0xAB]
              ++ [b3, b4, b5, b6, b7, b8, b9, b10, b11, b12, b13, b14, b15, b16, b17, b18]
              ++ [DLE, ETX]) 18 0 = b18 from rfl,
          year_word b17 b18 h17 h18]
      rfl
    unfold trimble_branch
    rw [hacc]
    dsimp only
    rw [hpub]
  · intro input packet prev P hP
    unfold trimble_branch
    rw [hP]
    exact ⟨rfl, rfl, rfl⟩

theorem karaka_c1_witness :
    trimble_branch
      (trimble_escape [1, 2, 3, 4, 5, 6, 7, 8, 3, 0, 30, 12, 25, 9, 7, 198]
        ++ [DLE, ETX]) 0xAB [DLE, 0x8F, 0xAB]
    = { packetType := PacketType.unknown
        packet := []
        published := some { hours := 12, minutes := 30, seconds := 0, day := 25
                            month := 9, year := 256 * 7 + 198, locked := ((3 : Nat) == 3) }
        ret := true } :=
  (karaka_c1 1 2 3 4 5 6 7 8 3 0 30 12 25 9 7 198 (by decide) (by decide)).1

end Karaka
